import Mathlib

/-!
Shallow embedding of the prac4 movie service (src/prac4/cmd/api/main.go).

The service is a single Go file: a router over three paths (health, the
movies collection, and movies-slash-id items) whose handlers run one SQL
statement each against a `movies(id SERIAL PRIMARY KEY, title TEXT NOT NULL)`
table and write JSON responses.

Modelling conventions:
  - the database table is a pure `Store` (list of rows plus the next
    SERIAL value); each SQL statement becomes a pure function on it;
  - a possible failure of the one SQL statement a handler issues is
    injected as an explicit `dbFail : Option String` argument (the
    error text the driver would return); `none` means the statement
    succeeds;
  - the stdlib JSON decoder configured in `readJSON` (with
    DisallowUnknownFields) is modelled by a `BodyParse` record carrying
    the decode outcome of the request body: whether the body was
    malformed, whether it contained a field other than `title`, and the
    decoded title;
  - an HTTP response is its status code, whether the handler set the
    `Content-Type: application/json` header, and its JSON body (none
    when the handler wrote only a status, as the 405 and 204 paths do);
  - `strconv.ParseInt(s, 10, 64)` is modelled exactly: optional sign,
    nonempty decimal digits, signed 64-bit range check.
-/

structure Movie where
  id : Int
  title : String
deriving Repr, DecidableEq

/-- Model of the Go sliceless JSON value space used by the handlers. -/
inductive Json where
  | null : Json
  | str : String → Json
  | num : Int → Json
  | arr : List Json → Json
  | obj : List (String × Json) → Json
deriving Repr

/-- Whitespace set of Go strings.TrimSpace (unicode.IsSpace). -/
def isSpaceChar (c : Char) : Bool :=
  c.toNat = 0x20 || c.toNat = 0x09 || c.toNat = 0x0A || c.toNat = 0x0B ||
  c.toNat = 0x0C || c.toNat = 0x0D || c.toNat = 0x85 || c.toNat = 0xA0 ||
  c.toNat = 0x1680 || (0x2000 ≤ c.toNat && c.toNat ≤ 0x200A) ||
  c.toNat = 0x2028 || c.toNat = 0x2029 || c.toNat = 0x202F ||
  c.toNat = 0x205F || c.toNat = 0x3000

/-- Model of Go strings.TrimSpace. -/
def trimSpace (s : String) : String :=
  String.mk (((s.data.dropWhile isSpaceChar).reverse.dropWhile isSpaceChar).reverse)

def digitVal (c : Char) : Option Nat :=
  if '0' ≤ c && c ≤ '9' then some (c.toNat - '0'.toNat) else none

def parseDigitsAux : List Char → Nat → Option Nat
  | [], acc => some acc
  | c :: cs, acc =>
    match digitVal c with
    | some d => parseDigitsAux cs (acc * 10 + d)
    | none => none

/-- Decimal digit run: none on an empty run or a non-digit character. -/
def parseDigits : List Char → Option Nat
  | [] => none
  | cs => parseDigitsAux cs 0

/-- Model of Go strconv.ParseInt(s, 10, 64): optional leading sign,
nonempty decimal digits, value within the signed 64-bit range;
`none` stands for a non-nil error (syntax or range). -/
def goParseInt64 (s : String) : Option Int :=
  match s.data with
  | [] => none
  | c :: rest =>
    let neg := c = '-'
    let ds := if c = '-' || c = '+' then rest else c :: rest
    match parseDigits ds with
    | none => none
    | some n =>
      if neg then
        if n ≤ 2 ^ 63 then some (-(n : Int)) else none
      else
        if n ≤ 2 ^ 63 - 1 then some (n : Int) else none

/-- The movies table plus the next SERIAL id the storage will assign. -/
structure Store where
  rows : List Movie
  nextId : Int
deriving Repr, DecidableEq

/-- INSERT INTO movies (title) VALUES ($1) RETURNING id. -/
def Store.insertMovie (s : Store) (title : String) : Store × Int :=
  (⟨s.rows ++ [⟨s.nextId, title⟩], s.nextId + 1⟩, s.nextId)

def insertById (m : Movie) : List Movie → List Movie
  | [] => [m]
  | x :: xs => if m.id ≤ x.id then m :: x :: xs else x :: insertById m xs

def sortById : List Movie → List Movie
  | [] => []
  | x :: xs => insertById x (sortById xs)

/-- SELECT id, title FROM movies ORDER BY id. -/
def Store.selectAll (s : Store) : List Movie :=
  sortById s.rows

/-- SELECT id, title FROM movies WHERE id equals the argument. -/
def Store.lookup (s : Store) (i : Int) : Option Movie :=
  s.rows.find? (fun m => m.id == i)

/-- UPDATE movies SET title WHERE id; returns the new table and the
affected-row count. -/
def Store.updateTitle (s : Store) (i : Int) (t : String) : Store × Nat :=
  (⟨s.rows.map (fun m => if m.id == i then ⟨m.id, t⟩ else m), s.nextId⟩,
   (s.rows.filter (fun m => m.id == i)).length)

/-- DELETE FROM movies WHERE id; returns the new table and the
affected-row count. -/
def Store.deleteMovie (s : Store) (i : Int) : Store × Nat :=
  (⟨s.rows.filter (fun m => !(m.id == i)), s.nextId⟩,
   (s.rows.filter (fun m => m.id == i)).length)

/-- An HTTP response as the handlers produce it: status code, whether
the Content-Type application/json header was set, and the JSON body. -/
structure Response where
  status : Nat
  hasJsonContentType : Bool
  body : Option Json
deriving Repr

/-- Model of writeJSON: sets the Content-Type header, writes the code
and encodes the value as the body. -/
def writeJSON (code : Nat) (v : Json) : Response :=
  ⟨code, true, some v⟩

/-- Model of a bare w.WriteHeader(code): no Content-Type, no body. -/
def plainStatus (code : Nat) : Response :=
  ⟨code, false, none⟩

def errBody (msg : String) : Json :=
  .obj [("error", .str msg)]

def movieJson (m : Movie) : Json :=
  .obj [("id", .num m.id), ("title", .str m.title)]

/-- Decode outcome of a request body for the title-only payload struct. -/
structure BodyParse where
  malformed : Bool
  hasUnknownField : Bool
  title : String
deriving Repr, DecidableEq

/-- Model of readJSON: a json.Decoder with DisallowUnknownFields set
when the flag is true; `none` stands for a non-nil decode error. -/
def readJSON (disallowUnknown : Bool) (b : BodyParse) : Option String :=
  if b.malformed then none
  else if disallowUnknown && b.hasUnknownField then none
  else some b.title

/-- Model of the nil-slice append pattern in the GET collection branch:
`var out []Movie` starts as the nil slice (`none`); append always yields
a non-nil slice. -/
def appendSlice (out : Option (List Movie)) (m : Movie) : Option (List Movie) :=
  some (out.getD [] ++ [m])

def buildOut (ms : List Movie) : Option (List Movie) :=
  ms.foldl appendSlice none

/-- Go encoding/json renders a nil slice as null and a non-nil slice as
an array. -/
def goEncodeMovieSlice (out : Option (List Movie)) : Json :=
  match out with
  | none => .null
  | some ms => .arr (ms.map movieJson)

/-- GET on the collection path: query all rows ordered by id, 500 on a
query or scan failure, else 200 with the encoded slice. -/
def handleGetMovies (dbFail : Option String) (s : Store) : Response :=
  match dbFail with
  | some e => writeJSON 500 (errBody e)
  | none => writeJSON 200 (goEncodeMovieSlice (buildOut s.selectAll))

/-- POST on the collection path: decode the title-only body rejecting
unknown fields, trim the title, 400 on decode error or empty trimmed
title, insert and answer 201 with the assigned id, 500 on insert
failure. -/
def handlePostMovies (b : BodyParse) (dbFail : Option String) (s : Store) :
    Response × Store :=
  match readJSON true b with
  | none => (writeJSON 400 (errBody "invalid json"), s)
  | some rawTitle =>
    let title := trimSpace rawTitle
    if title = "" then (writeJSON 400 (errBody "title is required"), s)
    else
      match dbFail with
      | some e => (writeJSON 500 (errBody e), s)
      | none =>
        let ins := s.insertMovie title
        (writeJSON 201 (movieJson ⟨ins.2, title⟩), ins.1)

/-- The collection endpoint: GET, POST, or a bare 405. -/
def handleMovies (method : String) (b : BodyParse) (dbFail : Option String)
    (s : Store) : Response × Store :=
  if method = "GET" then (handleGetMovies dbFail s, s)
  else if method = "POST" then handlePostMovies b dbFail s
  else (plainStatus 405, s)

/-- Model of strings.TrimPfx for the literal item route: when the path
starts with the movies item route (8 characters) drop that run, else
return the path unchanged. -/
def itemIdSegment (path : String) : String :=
  if "/movies/".data.isPrefixOf path.data then String.mk (path.data.drop 8)
  else path

/-- The item endpoint: parse the trailing segment as a positive 64-bit
integer (400 otherwise), then dispatch on the method: GET looks the row
up (404 when absent), PUT revalidates the title and updates (404 when
no row matched), DELETE removes (404 when no row matched, else a bare
204), anything else a bare 405. -/
def handleItem (method path : String) (b : BodyParse) (dbFail : Option String)
    (s : Store) : Response × Store :=
  let idStr := itemIdSegment path
  match goParseInt64 idStr with
  | none => (writeJSON 400 (errBody "invalid id"), s)
  | some i =>
    if i ≤ 0 then (writeJSON 400 (errBody "invalid id"), s)
    else
      if method = "GET" then
        match dbFail with
        | some e => (writeJSON 500 (errBody e), s)
        | none =>
          match s.lookup i with
          | none => (writeJSON 404 (errBody "not found"), s)
          | some m => (writeJSON 200 (movieJson m), s)
      else if method = "PUT" then
        match readJSON true b with
        | none => (writeJSON 400 (errBody "invalid json"), s)
        | some rawTitle =>
          let title := trimSpace rawTitle
          if title = "" then (writeJSON 400 (errBody "title is required"), s)
          else
            match dbFail with
            | some e => (writeJSON 500 (errBody e), s)
            | none =>
              let upd := s.updateTitle i title
              if upd.2 = 0 then (writeJSON 404 (errBody "not found"), upd.1)
              else (writeJSON 200 (movieJson ⟨i, title⟩), upd.1)
      else if method = "DELETE" then
        match dbFail with
        | some e => (writeJSON 500 (errBody e), s)
        | none =>
          let del := s.deleteMovie i
          if del.2 = 0 then (writeJSON 404 (errBody "not found"), del.1)
          else (plainStatus 204, del.1)
      else (plainStatus 405, s)

def healthBody : Json :=
  .obj [("status", .str "ok")]

/-- The router: exact match on the health and collection paths, a
subtree match on the item route, and the Go default mux not-found
answer (a text-plain 404 page) elsewhere. -/
def serveMux (method path : String) (b : BodyParse) (dbFail : Option String)
    (s : Store) : Response × Store :=
  if path = "/health" then (writeJSON 200 healthBody, s)
  else if path = "/movies" then handleMovies method b dbFail s
  else if "/movies/".data.isPrefixOf path.data then
    handleItem method path b dbFail s
  else (⟨404, false, some (.str "404 page not found")⟩, s)

/-- The readiness gate, with an explicit fuel bound standing for elapsed
one-second intervals: probe, return on success, else sleep one second
and retry. The result is the index of the succeeding probe, which is
also the number of one-second sleeps taken; `none` means no probe in
the first `fuel` attempts succeeded, so the loop is still running. -/
def waitForDBAux (probes : Nat → Bool) : Nat → Nat → Option Nat
  | _, 0 => none
  | k, fuel + 1 => if probes k then some k else waitForDBAux probes (k + 1) fuel

def waitForDB (probes : Nat → Bool) (fuel : Nat) : Option Nat :=
  waitForDBAux probes 0 fuel

/-- Spec-side helper: the trailing segment of the path parses as a
positive integer (the condition under which the item handler proceeds
past its 400 guard). -/
def segIsPositive (path : String) : Bool :=
  match goParseInt64 (itemIdSegment path) with
  | none => false
  | some i => decide (0 < i)

/-! Helper lemmas -/

lemma isPrefixOf_append_left (l r : List Char) : l.isPrefixOf (l ++ r) = true := by
  induction l with
  | nil => simp
  | cons c cs ih => simp [List.isPrefixOf, ih]

lemma itemIdSegment_append (seg : String) :
    itemIdSegment ("/movies/" ++ seg) = seg := by
  have hpfx : "/movies/".data.isPrefixOf ("/movies/" ++ seg).data = true := by
    rw [String.data_append]; exact isPrefixOf_append_left _ _
  have hdrop : ("/movies/" ++ seg).data.drop 8 = seg.data := by
    rw [String.data_append,
      show (8 : Nat) = "/movies/".data.length from rfl]
    exact List.drop_left _ _
  simp only [itemIdSegment, hpfx, if_true, hdrop]

lemma find_append_new (rows : List Movie) (nid : Int) (t : String)
    (hinv : ∀ m ∈ rows, m.id < nid) :
    (rows ++ [(⟨nid, t⟩ : Movie)]).find? (fun m => m.id == nid) = some ⟨nid, t⟩ := by
  induction rows with
  | nil => simp
  | cons m ms ih =>
    have hm : m.id < nid := hinv m (List.mem_cons_self m ms)
    have hne : (m.id == nid) = false := by
      rw [beq_eq_false_iff_ne]; omega
    simp only [List.cons_append, List.find?, hne]
    exact ih (fun x hx => hinv x (List.mem_cons_of_mem m hx))

/-! Claim theorems -/

/-- C1: for every title that is non-empty after trimming, a POST of
that title followed by a GET on the item route whose trailing segment
denotes the id the POST returned answers 200 with the trimmed title. -/
theorem c1_post_get_roundtrip (t : String) (b₂ : BodyParse) (seg : String)
    (s : Store)
    (ht : trimSpace t ≠ "")
    (hinv : ∀ m ∈ s.rows, m.id < s.nextId)
    (hseg : goParseInt64 seg = some s.nextId)
    (hpos : 0 < s.nextId) :
    (handlePostMovies ⟨false, false, t⟩ none s).1
      = writeJSON 201 (movieJson ⟨s.nextId, trimSpace t⟩) ∧
    (handleItem "GET" ("/movies/" ++ seg) b₂ none
        (handlePostMovies ⟨false, false, t⟩ none s).2).1
      = writeJSON 200 (movieJson ⟨s.nextId, trimSpace t⟩) := by
  have hpost : handlePostMovies ⟨false, false, t⟩ none s
      = (writeJSON 201 (movieJson ⟨s.nextId, trimSpace t⟩),
         ⟨s.rows ++ [⟨s.nextId, trimSpace t⟩], s.nextId + 1⟩) := by
    simp [handlePostMovies, readJSON, ht, Store.insertMovie]
  refine ⟨by rw [hpost], ?_⟩
  rw [hpost]
  have hseg2 : itemIdSegment ("/movies/" ++ seg) = seg := itemIdSegment_append seg
  have hle : ¬ (s.nextId ≤ 0) := by omega
  simp [handleItem, hseg2, hseg, hle, Store.lookup,
    find_append_new s.rows s.nextId (trimSpace t) hinv]

/-- C1 witness at a concrete input. -/
theorem c1_post_get_roundtrip_witness :
    (handlePostMovies ⟨false, false, " Dune "⟩ none ⟨[], 1⟩).1
      = writeJSON 201 (movieJson ⟨1, "Dune"⟩) ∧
    (handleItem "GET" ("/movies/" ++ "1") ⟨false, false, ""⟩ none
        (handlePostMovies ⟨false, false, " Dune "⟩ none ⟨[], 1⟩).2).1
      = writeJSON 200 (movieJson ⟨1, "Dune"⟩) := by
  have h := c1_post_get_roundtrip " Dune " ⟨false, false, ""⟩ "1" ⟨[], 1⟩
    (by decide) (by intro m hm; cases hm) (by decide) (by decide)
  have he : trimSpace " Dune " = "Dune" := by decide
  simpa only [he] using h

/-- C2: the POST handler answers 400 on a malformed body, 400 on a body
with a field other than title, 400 when the trimmed title is empty;
otherwise it inserts the trimmed title as a new row under the next
storage id and answers 201 with that id and title, or 500 carrying the
error text when the insert fails. -/
theorem c2_post_spec (b : BodyParse) (df : Option String) (s : Store) :
    (b.malformed = true →
      handlePostMovies b df s = (writeJSON 400 (errBody "invalid json"), s)) ∧
    (b.hasUnknownField = true →
      handlePostMovies b df s = (writeJSON 400 (errBody "invalid json"), s)) ∧
    (b.malformed = false → b.hasUnknownField = false → trimSpace b.title = "" →
      handlePostMovies b df s = (writeJSON 400 (errBody "title is required"), s)) ∧
    (b.malformed = false → b.hasUnknownField = false → trimSpace b.title ≠ "" →
      df = none →
      handlePostMovies b df s
        = (writeJSON 201 (movieJson ⟨s.nextId, trimSpace b.title⟩),
           ⟨s.rows ++ [⟨s.nextId, trimSpace b.title⟩], s.nextId + 1⟩)) ∧
    (∀ e, b.malformed = false → b.hasUnknownField = false →
      trimSpace b.title ≠ "" → df = some e →
      handlePostMovies b df s = (writeJSON 500 (errBody e), s)) := by
  refine ⟨?_, ?_, ?_, ?_, ?_⟩ <;> intros <;>
    simp_all [handlePostMovies, readJSON, Store.insertMovie]

/-- C2 witness: one concrete input per branch of the POST handler. -/
theorem c2_post_spec_witness :
    (handlePostMovies ⟨true, false, "Dune"⟩ none ⟨[], 1⟩
        = (writeJSON 400 (errBody "invalid json"), ⟨[], 1⟩)) ∧
    (handlePostMovies ⟨false, true, "Dune"⟩ none ⟨[], 1⟩
        = (writeJSON 400 (errBody "invalid json"), ⟨[], 1⟩)) ∧
    (handlePostMovies ⟨false, false, "  "⟩ none ⟨[], 1⟩
        = (writeJSON 400 (errBody "title is required"), ⟨[], 1⟩)) ∧
    (handlePostMovies ⟨false, false, " Dune "⟩ none ⟨[], 1⟩
        = (writeJSON 201 (movieJson ⟨1, "Dune"⟩), ⟨[⟨1, "Dune"⟩], 2⟩)) ∧
    (handlePostMovies ⟨false, false, "Dune"⟩ (some "boom") ⟨[], 1⟩
        = (writeJSON 500 (errBody "boom"), ⟨[], 1⟩)) := by
  have he : trimSpace " Dune " = "Dune" := by decide
  refine ⟨(c2_post_spec ⟨true, false, "Dune"⟩ none ⟨[], 1⟩).1 rfl,
          (c2_post_spec ⟨false, true, "Dune"⟩ none ⟨[], 1⟩).2.1 rfl,
          (c2_post_spec ⟨false, false, "  "⟩ none ⟨[], 1⟩).2.2.1 rfl rfl (by decide),
          ?_,
          (c2_post_spec ⟨false, false, "Dune"⟩ (some "boom") ⟨[], 1⟩).2.2.2.2
            "boom" rfl rfl (by decide) rfl⟩
  have h := (c2_post_spec ⟨false, false, " Dune "⟩ none ⟨[], 1⟩).2.2.2.1
    rfl rfl (by decide) rfl
  simpa only [he, List.nil_append] using h

/-- C3 counterexample: on an empty table with a successful query the
collection GET answers 200 whose body is JSON null (the Go nil slice),
not the empty array the claim requires. -/
theorem c3_counterexample :
    (handleGetMovies none ⟨[], 1⟩).status = 200 ∧
    (handleGetMovies none ⟨[], 1⟩).body = some Json.null ∧
    (handleGetMovies none ⟨[], 1⟩).body ≠ some (Json.arr []) := by
  refine ⟨rfl, rfl, ?_⟩
  intro h
  rw [show (handleGetMovies none ⟨[], 1⟩).body = some Json.null from rfl] at h
  exact Json.noConfusion (Option.some.inj h)

/-- C3 amended: when the table has no rows and the query succeeds, the
collection GET answers 200 with body JSON null, because the handler
accumulates into a nil Go slice and encoding/json renders the nil slice
as null rather than as an empty array. -/
theorem c3_empty_table_null (df : Option String) (s : Store)
    (h1 : df = none) (h2 : s.rows = []) :
    handleGetMovies df s = writeJSON 200 Json.null := by
  subst h1
  simp [handleGetMovies, Store.selectAll, h2, sortById, buildOut,
    goEncodeMovieSlice]

/-- C3 witness at a concrete input. -/
theorem c3_empty_table_null_witness :
    handleGetMovies none ⟨[], 1⟩ = writeJSON 200 Json.null :=
  c3_empty_table_null none ⟨[], 1⟩ rfl rfl

/-- C4 counterexample: a PUT whose trailing segment parses as the
positive id 1 still answers 400 when the request body is malformed, so
a 400 answer is not confined to non-positive-integer segments. -/
theorem c4_counterexample :
    goParseInt64 (itemIdSegment "/movies/1") = some 1 ∧
    (handleItem "PUT" "/movies/1" ⟨true, false, ""⟩ none
        ⟨[⟨1, "Dune"⟩], 2⟩).1.status = 400 :=
  ⟨by decide, rfl⟩

/-- C4 amended: every request on the item route answers 400 with the
store untouched whenever the trailing segment does not parse as a
positive integer, and for GET and DELETE a 400 answer occurs only
then; a PUT whose segment is a positive integer can still answer 400
from body validation. -/
theorem c4_bad_id (method path : String) (b : BodyParse) (df : Option String)
    (s : Store) :
    (segIsPositive path = false →
      handleItem method path b df s = (writeJSON 400 (errBody "invalid id"), s)) ∧
    (segIsPositive path = true → method = "GET" ∨ method = "DELETE" →
      (handleItem method path b df s).1.status ≠ 400) := by
  constructor
  · intro hbad
    unfold segIsPositive at hbad
    cases hgp : goParseInt64 (itemIdSegment path) with
    | none => simp [handleItem, hgp]
    | some i =>
      rw [hgp] at hbad
      have hle : i ≤ 0 := by
        by_contra hc
        rw [decide_eq_false_iff_not] at hbad
        omega
      simp [handleItem, hgp, hle]
  · intro hpos hmeth
    unfold segIsPositive at hpos
    cases hgp : goParseInt64 (itemIdSegment path) with
    | none => rw [hgp] at hpos; simp at hpos
    | some i =>
      rw [hgp, decide_eq_true_eq] at hpos
      have hle : ¬ (i ≤ 0) := by omega
      have hGET : ∀ e, (handleItem "GET" path b e s).1.status ≠ 400 := by
        intro e
        simp only [handleItem, hgp]
        rw [if_neg hle]
        simp only [reduceIte]
        cases e with
        | some e => simp [writeJSON]
        | none =>
          cases hlk : s.lookup i with
          | none => simp [hlk, writeJSON]
          | some m => simp [hlk, writeJSON]
      have hDEL : ∀ e, (handleItem "DELETE" path b e s).1.status ≠ 400 := by
        intro e
        simp only [handleItem, hgp]
        rw [if_neg hle]
        simp only [reduceIte]
        cases e with
        | some e => simp [writeJSON]
        | none =>
          by_cases hz : (s.deleteMovie i).2 = 0
          · simp [hz, writeJSON]
          · simp [hz, plainStatus]
      rcases hmeth with h | h <;> subst h
      · exact hGET df
      · exact hDEL df

/-- C4 witness: the two segments named by the claim answer 400 with no
store change, and a well-formed positive segment under GET does not. -/
theorem c4_bad_id_witness :
    handleItem "GET" "/movies/abc" ⟨false, false, ""⟩ none ⟨[], 1⟩
      = (writeJSON 400 (errBody "invalid id"), ⟨[], 1⟩) ∧
    handleItem "GET" "/movies/-1" ⟨false, false, ""⟩ none ⟨[], 1⟩
      = (writeJSON 400 (errBody "invalid id"), ⟨[], 1⟩) ∧
    (handleItem "GET" "/movies/5" ⟨false, false, ""⟩ none ⟨[], 1⟩).1.status ≠ 400 :=
  ⟨(c4_bad_id "GET" "/movies/abc" ⟨false, false, ""⟩ none ⟨[], 1⟩).1 (by decide),
   (c4_bad_id "GET" "/movies/-1" ⟨false, false, ""⟩ none ⟨[], 1⟩).1 (by decide),
   (c4_bad_id "GET" "/movies/5" ⟨false, false, ""⟩ none ⟨[], 1⟩).2 (by decide)
     (Or.inl rfl)⟩

lemma map_keep_of_absent (rows : List Movie) (i : Int) (t : String)
    (habs : ∀ m ∈ rows, m.id ≠ i) :
    rows.map (fun m => if m.id == i then (⟨m.id, t⟩ : Movie) else m) = rows := by
  induction rows with
  | nil => rfl
  | cons m ms ih =>
    have h1 : (m.id == i) = false := by
      rw [beq_eq_false_iff_ne]; exact habs m (List.mem_cons_self m ms)
    rw [List.map_cons, ih (fun x hx => habs x (List.mem_cons_of_mem m hx)),
      if_neg (by simp [h1])]

lemma filter_nil_of_absent (rows : List Movie) (i : Int)
    (habs : ∀ m ∈ rows, m.id ≠ i) :
    rows.filter (fun m => m.id == i) = [] := by
  induction rows with
  | nil => rfl
  | cons m ms ih =>
    have h1 : (m.id == i) = false := by
      rw [beq_eq_false_iff_ne]; exact habs m (List.mem_cons_self m ms)
    simp [List.filter_cons, h1, ih (fun x hx => habs x (List.mem_cons_of_mem m hx))]

/-- C5: a PUT on the item route whose segment denotes a positive id
carried by no row, with a valid title, answers 404 and leaves the store
exactly as it was: no row is created and none is modified. -/
theorem c5_put_absent_404 (seg t : String) (i : Int) (s : Store)
    (hseg : goParseInt64 seg = some i) (hi : 0 < i)
    (ht : trimSpace t ≠ "")
    (habs : ∀ m ∈ s.rows, m.id ≠ i) :
    handleItem "PUT" ("/movies/" ++ seg) ⟨false, false, t⟩ none s
      = (writeJSON 404 (errBody "not found"), s) := by
  have hseg2 := itemIdSegment_append seg
  have hle : ¬ (i ≤ 0) := by omega
  have hupd : s.updateTitle i (trimSpace t) = (s, 0) := by
    unfold Store.updateTitle
    rw [map_keep_of_absent s.rows i (trimSpace t) habs,
        filter_nil_of_absent s.rows i habs]
    rfl
  simp [handleItem, hseg2, hseg, hle, readJSON, ht, hupd]

/-- C5 witness at a concrete input. -/
theorem c5_put_absent_404_witness :
    handleItem "PUT" ("/movies/" ++ "2") ⟨false, false, "X"⟩ none
        ⟨[⟨1, "Dune"⟩], 2⟩
      = (writeJSON 404 (errBody "not found"), ⟨[⟨1, "Dune"⟩], 2⟩) :=
  c5_put_absent_404 "2" "X" 2 ⟨[⟨1, "Dune"⟩], 2⟩ (by decide) (by decide)
    (by decide) (by decide)

/-- C6 counterexample: POST is not an operation of the health path, yet
the health handler ignores the method and answers 200, not 405. -/
theorem c6_counterexample :
    (serveMux "POST" "/health" ⟨false, false, ""⟩ none ⟨[], 1⟩).1.status = 200 ∧
    (serveMux "POST" "/health" ⟨false, false, ""⟩ none ⟨[], 1⟩).1.status ≠ 405 :=
  ⟨rfl, by decide⟩

/-- C6 amended: the collection path answers a bare 405 to any method
other than GET and POST, and the item route with a positive-integer
segment answers a bare 405 to any method other than GET, PUT and
DELETE; the health path instead answers 200 to every method, and the
item route puts its segment check first, answering 400 to any method
when the segment is not a positive integer. -/
theorem c6_method_not_allowed (method path : String) (b : BodyParse)
    (df : Option String) (s : Store) :
    (path = "/health" →
      serveMux method path b df s = (writeJSON 200 healthBody, s)) ∧
    (path = "/movies" → method ≠ "GET" → method ≠ "POST" →
      serveMux method path b df s = (plainStatus 405, s)) ∧
    ("/movies/".data.isPrefixOf path.data = true → segIsPositive path = true →
      method ≠ "GET" → method ≠ "PUT" → method ≠ "DELETE" →
      serveMux method path b df s = (plainStatus 405, s)) ∧
    ("/movies/".data.isPrefixOf path.data = true → segIsPositive path = false →
      serveMux method path b df s = (writeJSON 400 (errBody "invalid id"), s)) := by
  refine ⟨?_, ?_, ?_, ?_⟩
  · intro h; subst h; rfl
  · intro h h1 h2; subst h
    simp [serveMux, handleMovies, h1, h2]
  · intro hpfx hpos h1 h2 h3
    have hne1 : path ≠ "/health" := by
      intro he; subst he; exact absurd hpfx (by decide)
    have hne2 : path ≠ "/movies" := by
      intro he; subst he; exact absurd hpfx (by decide)
    unfold segIsPositive at hpos
    cases hgp : goParseInt64 (itemIdSegment path) with
    | none => rw [hgp] at hpos; simp at hpos
    | some i =>
      rw [hgp, decide_eq_true_eq] at hpos
      have hle : ¬ (i ≤ 0) := by omega
      simp [serveMux, hne1, hne2, hpfx, handleItem, hgp, hle, h1, h2, h3]
  · intro hpfx hbad
    have hne1 : path ≠ "/health" := by
      intro he; subst he; exact absurd hpfx (by decide)
    have hne2 : path ≠ "/movies" := by
      intro he; subst he; exact absurd hpfx (by decide)
    unfold segIsPositive at hbad
    cases hgp : goParseInt64 (itemIdSegment path) with
    | none => simp [serveMux, hne1, hne2, hpfx, handleItem, hgp]
    | some i =>
      rw [hgp] at hbad
      have hle : i ≤ 0 := by
        by_contra hc
        rw [decide_eq_false_iff_not] at hbad
        omega
      simp [serveMux, hne1, hne2, hpfx, handleItem, hgp, hle]

/-- C6 witness: one concrete request per clause of the amended claim. -/
theorem c6_method_not_allowed_witness :
    serveMux "DELETE" "/health" ⟨false, false, ""⟩ none ⟨[], 1⟩
      = (writeJSON 200 healthBody, ⟨[], 1⟩) ∧
    serveMux "DELETE" "/movies" ⟨false, false, ""⟩ none ⟨[], 1⟩
      = (plainStatus 405, ⟨[], 1⟩) ∧
    serveMux "PATCH" "/movies/5" ⟨false, false, ""⟩ none ⟨[], 1⟩
      = (plainStatus 405, ⟨[], 1⟩) ∧
    serveMux "PATCH" "/movies/abc" ⟨false, false, ""⟩ none ⟨[], 1⟩
      = (writeJSON 400 (errBody "invalid id"), ⟨[], 1⟩) :=
  ⟨(c6_method_not_allowed "DELETE" "/health" ⟨false, false, ""⟩ none ⟨[], 1⟩).1 rfl,
   (c6_method_not_allowed "DELETE" "/movies" ⟨false, false, ""⟩ none ⟨[], 1⟩).2.1
     rfl (by decide) (by decide),
   (c6_method_not_allowed "PATCH" "/movies/5" ⟨false, false, ""⟩ none ⟨[], 1⟩).2.2.1
     (by decide) (by decide) (by decide) (by decide) (by decide),
   (c6_method_not_allowed "PATCH" "/movies/abc" ⟨false, false, ""⟩ none ⟨[], 1⟩).2.2.2
     (by decide) (by decide)⟩

lemma ct_movies (method : String) (b : BodyParse) (df : Option String)
    (s : Store) :
    ((handleMovies method b df s).1.hasJsonContentType
      = ((handleMovies method b df s).1.body).isSome) ∧
    (((handleMovies method b df s).1.status = 405 ∨
      (handleMovies method b df s).1.status = 204) →
      (handleMovies method b df s).1.hasJsonContentType = false) := by
  unfold handleMovies handleGetMovies handlePostMovies
  repeat' first | split | dsimp only
  all_goals dsimp only [writeJSON, plainStatus]
  all_goals refine ⟨rfl, fun h => ?_⟩
  all_goals rcases h with h | h <;> first | rfl | exact absurd h (by omega)

lemma ct_item (method path : String) (b : BodyParse) (df : Option String)
    (s : Store) :
    ((handleItem method path b df s).1.hasJsonContentType
      = ((handleItem method path b df s).1.body).isSome) ∧
    (((handleItem method path b df s).1.status = 405 ∨
      (handleItem method path b df s).1.status = 204) →
      (handleItem method path b df s).1.hasJsonContentType = false) := by
  unfold handleItem
  repeat' first | split | dsimp only
  all_goals dsimp only [writeJSON, plainStatus]
  all_goals refine ⟨rfl, fun h => ?_⟩
  all_goals rcases h with h | h <;> first | rfl | exact absurd h (by omega)

/-- C7 counterexample: the 204 answer to a successful DELETE carries no
Content-Type header, so not every response carries application/json. -/
theorem c7_counterexample :
    (handleItem "DELETE" "/movies/1" ⟨false, false, ""⟩ none
        ⟨[⟨1, "Dune"⟩], 2⟩).1.status = 204 ∧
    (handleItem "DELETE" "/movies/1" ⟨false, false, ""⟩ none
        ⟨[⟨1, "Dune"⟩], 2⟩).1.hasJsonContentType = false :=
  ⟨rfl, rfl⟩

/-- C7 amended: on the matched paths a response carries the
Content-Type application/json header exactly when it carries a JSON
body (everything written through writeJSON does), while the bare 405
and 204 answers set no Content-Type header. -/
theorem c7_content_type (method path : String) (b : BodyParse)
    (df : Option String) (s : Store)
    (hmatched : path = "/health" ∨ path = "/movies" ∨
      "/movies/".data.isPrefixOf path.data = true) :
    ((serveMux method path b df s).1.hasJsonContentType
      = ((serveMux method path b df s).1.body).isSome) ∧
    (((serveMux method path b df s).1.status = 405 ∨
      (serveMux method path b df s).1.status = 204) →
      (serveMux method path b df s).1.hasJsonContentType = false) := by
  rcases hmatched with h | h | h
  · subst h
    have hs : serveMux method "/health" b df s = (writeJSON 200 healthBody, s) :=
      rfl
    rw [hs]
    refine ⟨rfl, fun hh => ?_⟩
    rcases hh with hh | hh <;> simp [writeJSON] at hh
  · subst h
    have hs : serveMux method "/movies" b df s = handleMovies method b df s :=
      rfl
    rw [hs]
    exact ct_movies method b df s
  · have hne1 : path ≠ "/health" := by
      intro he; subst he; exact absurd h (by decide)
    have hne2 : path ≠ "/movies" := by
      intro he; subst he; exact absurd h (by decide)
    have hs : serveMux method path b df s = handleItem method path b df s := by
      simp [serveMux, hne1, hne2, h]
    rw [hs]
    exact ct_item method path b df s

/-- C7 witness at a concrete matched request. -/
theorem c7_content_type_witness :
    ((serveMux "DELETE" "/movies/1" ⟨false, false, ""⟩ none
        ⟨[⟨1, "Dune"⟩], 2⟩).1.hasJsonContentType
      = ((serveMux "DELETE" "/movies/1" ⟨false, false, ""⟩ none
        ⟨[⟨1, "Dune"⟩], 2⟩).1.body).isSome) ∧
    (((serveMux "DELETE" "/movies/1" ⟨false, false, ""⟩ none
        ⟨[⟨1, "Dune"⟩], 2⟩).1.status = 405 ∨
      (serveMux "DELETE" "/movies/1" ⟨false, false, ""⟩ none
        ⟨[⟨1, "Dune"⟩], 2⟩).1.status = 204) →
      (serveMux "DELETE" "/movies/1" ⟨false, false, ""⟩ none
        ⟨[⟨1, "Dune"⟩], 2⟩).1.hasJsonContentType = false) :=
  c7_content_type "DELETE" "/movies/1" ⟨false, false, ""⟩ none
    ⟨[⟨1, "Dune"⟩], 2⟩ (Or.inr (Or.inr (by decide)))

lemma waitForDBAux_none (probes : Nat → Bool)
    (hall : ∀ i, probes i = false) :
    ∀ fuel k, waitForDBAux probes k fuel = none := by
  intro fuel
  induction fuel with
  | zero => intro k; rfl
  | succ n ih =>
    intro k
    simp only [waitForDBAux, hall k, Bool.false_eq_true, if_false]
    exact ih (k + 1)

lemma waitForDBAux_first (probes : Nat → Bool) (k : Nat)
    (hk : probes k = true) (hbefore : ∀ j, j < k → probes j = false) :
    ∀ fuel k0, k0 ≤ k → k < k0 + fuel →
      waitForDBAux probes k0 fuel = some k := by
  intro fuel
  induction fuel with
  | zero => intro k0 h1 h2; exact absurd h2 (by omega)
  | succ n ih =>
    intro k0 h1 h2
    by_cases hk0 : k0 = k
    · subst hk0; simp [waitForDBAux, hk]
    · have hlt : k0 < k := by omega
      simp only [waitForDBAux, hbefore k0 hlt, Bool.false_eq_true, if_false]
      exact ih (k0 + 1) (by omega) (by omega)

lemma waitForDBAux_some (probes : Nat → Bool) :
    ∀ fuel k0 k, waitForDBAux probes k0 fuel = some k →
      probes k = true ∧ k0 ≤ k ∧ ∀ j, k0 ≤ j → j < k → probes j = false := by
  intro fuel
  induction fuel with
  | zero => intro k0 k h; cases h
  | succ n ih =>
    intro k0 k h
    rw [show waitForDBAux probes k0 (n + 1)
        = if probes k0 then some k0 else waitForDBAux probes (k0 + 1) n from rfl]
      at h
    by_cases hp : probes k0 = true
    · rw [if_pos hp] at h
      injection h with h
      subst h
      exact ⟨hp, Nat.le_refl _, fun j hj1 hj2 => absurd hj2 (by omega)⟩
    · have hp' : probes k0 = false := by
        cases hpk : probes k0
        · rfl
        · exact absurd hpk hp
      rw [if_neg (by simp [hp'])] at h
      have hres := ih (k0 + 1) k h
      refine ⟨hres.1, by omega, fun j hj1 hj2 => ?_⟩
      by_cases hj : j = k0
      · subst hj; exact hp'
      · exact hres.2.2 j (by omega) hj2

/-- C8: the readiness gate, over an arbitrary probe sequence, returns
exactly at the first succeeding probe (one probe per one-second
interval, the result being the number of one-second sleeps taken), and
when every probe fails it returns under no fuel bound at all. -/
theorem c8_waitForDB_spec (probes : Nat → Bool) (k fuel : Nat) :
    (probes k = true → (∀ j, j < k → probes j = false) → k < fuel →
      waitForDB probes fuel = some k) ∧
    (waitForDB probes fuel = some k →
      probes k = true ∧ ∀ j, j < k → probes j = false) ∧
    ((∀ i, probes i = false) → waitForDB probes fuel = none) := by
  refine ⟨?_, ?_, ?_⟩
  · intro h1 h2 h3
    exact waitForDBAux_first probes k h1 h2 fuel 0 (Nat.zero_le _) (by omega)
  · intro h
    have hres := waitForDBAux_some probes fuel 0 k h
    exact ⟨hres.1, fun j hj => hres.2.2 j (Nat.zero_le _) hj⟩
  · intro hall
    exact waitForDBAux_none probes hall fuel 0

/-- C8 witness: a probe sequence succeeding first at index 2 yields
index 2 within fuel 10, and the all-failing sequence yields none. -/
theorem c8_waitForDB_spec_witness :
    waitForDB (fun i => i == 2) 10 = some 2 ∧
    ((fun i : Nat => i == 2) 2 = true ∧
      ∀ j, j < 2 → (fun i : Nat => i == 2) j = false) ∧
    waitForDB (fun _ => false) 10 = none := by
  refine ⟨(c8_waitForDB_spec (fun i => i == 2) 2 10).1 (by decide) ?_ (by omega),
          (c8_waitForDB_spec (fun i => i == 2) 2 10).2.1 (by decide),
          (c8_waitForDB_spec (fun _ => false) 0 10).2.2 (fun i => rfl)⟩
  intro j hj
  interval_cases j <;> rfl

lemma parseDigits_head (c : Char) (cs : List Char) (n : Nat)
    (h : parseDigits (c :: cs) = some n) : digitVal c ≠ none := by
  intro hd
  simp [parseDigits, parseDigitsAux, hd] at h

/-- C9: the item id is parsed as a signed 64-bit decimal integer: a
leading plus sign is accepted, so the plus-5 segment behaves exactly
like the 5 segment, while any digit run whose value exceeds the signed
64-bit maximum fails the parse, with or without the sign, and the
handler answers 400 with the store untouched rather than looking the
id up. -/
theorem c9_parse_int64 (method : String) (b : BodyParse) (df : Option String)
    (s : Store) (ds : List Char) (n : Nat)
    (hds : parseDigits ds = some n) (hbig : 2 ^ 63 - 1 < n) :
    goParseInt64 "+5" = some 5 ∧
    handleItem method "/movies/+5" b df s
      = handleItem method "/movies/5" b df s ∧
    goParseInt64 (String.mk ds) = none ∧
    goParseInt64 (String.mk ('+' :: ds)) = none ∧
    handleItem method ("/movies/" ++ String.mk ds) b df s
      = (writeJSON 400 (errBody "invalid id"), s) := by
  have hn : ¬ (n ≤ 2 ^ 63 - 1) := by omega
  have hbig' : 9223372036854775807 < n := by simpa using hbig
  have h3 : goParseInt64 (String.mk ds) = none := by
    cases ds with
    | nil => simp [parseDigits] at hds
    | cons c cs =>
      have hdg : digitVal c ≠ none := parseDigits_head c cs n hds
      have h1 : c ≠ '+' := fun he => hdg (by rw [he]; decide)
      have h2 : c ≠ '-' := fun he => hdg (by rw [he]; decide)
      simp [goParseInt64, h1, h2, hds, hn, hbig']
  have h4 : goParseInt64 (String.mk ('+' :: ds)) = none := by
    simp [goParseInt64, hds, hn, hbig', show ('+' : Char) ≠ '-' by decide]
  have e1 : goParseInt64 (itemIdSegment "/movies/+5") = some 5 := by decide
  have e2 : goParseInt64 (itemIdSegment "/movies/5") = some 5 := by decide
  have hseg : itemIdSegment ("/movies/" ++ String.mk ds) = String.mk ds :=
    itemIdSegment_append (String.mk ds)
  refine ⟨by decide, ?_, h3, h4, ?_⟩
  · simp only [handleItem, e1, e2]
  · simp [handleItem, hseg, h3]

/-- C9 witness: the two segments named by the claim at concrete
requests. -/
theorem c9_parse_int64_witness :
    goParseInt64 "+5" = some 5 ∧
    handleItem "GET" "/movies/+5" ⟨false, false, ""⟩ none ⟨[], 1⟩
      = handleItem "GET" "/movies/5" ⟨false, false, ""⟩ none ⟨[], 1⟩ ∧
    goParseInt64 (String.mk "9223372036854775808".data) = none ∧
    goParseInt64 (String.mk ('+' :: "9223372036854775808".data)) = none ∧
    handleItem "GET" ("/movies/" ++ String.mk "9223372036854775808".data)
        ⟨false, false, ""⟩ none ⟨[], 1⟩
      = (writeJSON 400 (errBody "invalid id"), ⟨[], 1⟩) :=
  c9_parse_int64 "GET" ⟨false, false, ""⟩ none ⟨[], 1⟩
    "9223372036854775808".data 9223372036854775808 (by decide) (by decide)

/-- C10: a PUT or DELETE on the item route whose trailing segment is
not a positive integer answers 400 with the store unchanged, and the
answer is computed before the body is read and before any SQL is
issued: it is identical for every body and every injected database
outcome. -/
theorem c10_bad_id_frame (method path : String) (b₁ b₂ : BodyParse)
    (df₁ df₂ : Option String) (s : Store)
    (_hm : method = "PUT" ∨ method = "DELETE")
    (hbad : segIsPositive path = false) :
    handleItem method path b₁ df₁ s
      = (writeJSON 400 (errBody "invalid id"), s) ∧
    handleItem method path b₁ df₁ s = handleItem method path b₂ df₂ s := by
  unfold segIsPositive at hbad
  have key : ∀ b df, handleItem method path b df s
      = (writeJSON 400 (errBody "invalid id"), s) := by
    intro b df
    cases hgp : goParseInt64 (itemIdSegment path) with
    | none => simp [handleItem, hgp]
    | some i =>
      rw [hgp] at hbad
      have hle : i ≤ 0 := by
        by_contra hc
        rw [decide_eq_false_iff_not] at hbad
        omega
      simp [handleItem, hgp, hle]
  exact ⟨key b₁ df₁, (key b₁ df₁).trans (key b₂ df₂).symm⟩

/-- C10 witness: two PUTs on a non-numeric segment differing in body
and injected database outcome produce the same 400 answer and the same
untouched store. -/
theorem c10_bad_id_frame_witness :
    (handleItem "PUT" "/movies/abc" ⟨false, false, "X"⟩ none ⟨[], 1⟩
      = (writeJSON 400 (errBody "invalid id"), ⟨[], 1⟩)) ∧
    (handleItem "PUT" "/movies/abc" ⟨false, false, "X"⟩ none ⟨[], 1⟩
      = handleItem "PUT" "/movies/abc" ⟨true, false, ""⟩ (some "boom") ⟨[], 1⟩) :=
  c10_bad_id_frame "PUT" "/movies/abc" ⟨false, false, "X"⟩ ⟨true, false, ""⟩
    none (some "boom") ⟨[], 1⟩ (Or.inl rfl) (by decide)
